import Mathlib

/-!
Verification development for the API request admission-control layer
(rate-limit middleware) of the sentry repository.

The repository excerpt ships the middleware's test suite
(tests/sentry/middleware/test_ratelimit_middleware.py) but not the
middleware implementation itself (sentry/middleware/ratelimit.py,
sentry/ratelimits/*, sentry/types/ratelimit.py).  The definitions below
are therefore modelled from the specification's component contracts
(spec sections 3-4), with the shipped tests fixing every externally
observable detail they attest (header names, key formats, category
preference, status codes).
-/

namespace Sentry

/-- The identity dimension used to scope a rate limit
(sentry.types.ratelimit.RateLimitCategory). -/
inductive RateLimitCategory
  | ip
  | user
  | organization
deriving DecidableEq

/-- The string rendering of a category used as the first segment of a
rate-limit key ("ip", "user", "org"), as attested by
test_get_rate_limit_key and test_rate_limit_category. -/
def RateLimitCategory.toStr : RateLimitCategory → String
  | .ip => "ip"
  | .user => "user"
  | .organization => "org"

/-- Modelled from the spec: the RateLimit value object (spec section 3):
max_requests (non-negative), window_seconds (positive), optional
max_concurrent. -/
structure RateLimit where
  max_requests : Nat
  window_seconds : Nat
  max_concurrent : Option Nat := none
deriving DecidableEq

/-- The authentication marker attached to a request by the (external)
authentication layer.  The shipped tests exercise four shapes: no auth,
a user API token (ApiToken), an organization-scoped sentry-app
installation token, and an organization-scoped ApiKey. -/
inductive Auth
  | noAuth
  | userToken (userId : Nat)
  | sentryAppToken (orgId : Nat)
  | apiKey (orgId : Nat)
deriving DecidableEq

/-- The slice of an HTTP request the limiter consumes (spec section 1):
HTTP method, resolved client address (REMOTE_ADDR, possibly absent),
the authenticated user id (none for AnonymousUser), and the auth
marker. -/
structure Request where
  method : String
  remoteAddr : Option String
  user : Option Nat
  auth : Auth
deriving DecidableEq

/-- Modelled from the spec: category resolution of the Admission
Middleware, preference ORGANIZATION > USER > IP (spec section 3); an
organization-scoped app token narrows to ORGANIZATION even if a user is
present, an organization-scoped ApiKey with an anonymous user falls
through to IP (test_get_rate_limit_key, test_rate_limit_category). -/
def rateLimitCategoryOf (req : Request) : Option RateLimitCategory :=
  match req.auth with
  | .sentryAppToken _ => some .organization
  | _ =>
    match req.user with
    | some _ => some .user
    | none =>
      match req.remoteAddr with
      | some _ => some .ip
      | none => none

/-- Modelled from the spec: the Key Deriver
(sentry.middleware.ratelimit.get_rate_limit_key, absent from the
excerpt).  Produces "<category>:<limit-group>:<endpoint>:<method>:<identity>"
with the identity value used verbatim, or none when no identity is
determinable (spec section 4.1; exact strings attested by
test_get_rate_limit_key). -/
def get_rate_limit_key (endpoint group : String) (req : Request) : Option String :=
  match req.auth with
  | .sentryAppToken orgId =>
    some ("org:" ++ group ++ ":" ++ endpoint ++ ":" ++ req.method ++ ":" ++ toString orgId)
  | _ =>
    match req.user with
    | some uid =>
      some ("user:" ++ group ++ ":" ++ endpoint ++ ":" ++ req.method ++ ":" ++ toString uid)
    | none =>
      match req.remoteAddr with
      | some ip =>
        some ("ip:" ++ group ++ ":" ++ endpoint ++ ":" ++ req.method ++ ":" ++ ip)
      | none => none

/-- Modelled from the spec: per-endpoint rate-limit configuration
(sentry.ratelimits.config.RateLimitConfig): a group name selecting a
named default set, and per-(method, category) overrides (spec
section 3). -/
structure RateLimitConfig where
  group : String
  limit_overrides : List ((String × RateLimitCategory) × RateLimit)

/-- First-match lookup of a (method, category) override. -/
def findOverride :
    List ((String × RateLimitCategory) × RateLimit) → String → RateLimitCategory →
    Option RateLimit
  | [], _, _ => none
  | (k, rl) :: rest, m, c => if k = (m, c) then some rl else findOverride rest m c

/-- Modelled from the spec: the hardcoded global default RateLimit
(spec section 4.2 resolution step 3); the numeric values are not fixed
by the excerpt. -/
def globalDefaultRateLimit : RateLimit := { max_requests := 100, window_seconds := 1 }

/-- Modelled from the spec: the named group default sets (spec
section 9, process-wide configuration); only the "default" group is
exercised by the shipped tests, its numeric values are not fixed by the
excerpt. -/
def ratelimitGroups : List (String × (RateLimitCategory → RateLimit)) :=
  [("default", fun _ => { max_requests := 100, window_seconds := 1 })]

/-- First-match lookup of a named group default set. -/
def findGroup :
    List (String × (RateLimitCategory → RateLimit)) → String →
    Option (RateLimitCategory → RateLimit)
  | [], _ => none
  | (g, f) :: rest, name => if g = name then some f else findGroup rest name

/-- Modelled from the spec: sentry.ratelimits.config.get_default_rate_limits_for_group;
the named default set for a group, falling back to the global default
(spec section 4.2). -/
def get_default_rate_limits_for_group (group : String) (cat : RateLimitCategory) : RateLimit :=
  match findGroup ratelimitGroups group with
  | some f => f cat
  | none => globalDefaultRateLimit

/-- Modelled from the spec: the Limit Resolver
(sentry.middleware.ratelimit.get_rate_limit_value): explicit
per-method-per-category override, else the group's default set, else
the global default (spec section 4.2; tested by TestGetRateLimitValue). -/
def get_rate_limit_value (method : String) (cfg : RateLimitConfig)
    (cat : RateLimitCategory) : RateLimit :=
  match findOverride cfg.limit_overrides method cat with
  | some rl => rl
  | none => get_default_rate_limits_for_group cfg.group cat

/-- The current counter record for a key (spec section 3, WindowBucket):
the admitted count and the fixed-origin window index
(bucket = now / window_seconds). -/
structure WindowBucket where
  count : Nat
  bucket : Nat
deriving DecidableEq

/-- The shared Window Counter Store, an association list from key to its
current WindowBucket; the most recent write shadows older entries. -/
abbrev WindowStore : Type := List (String × WindowBucket)

/-- First-match lookup in the window store. -/
def wlookup : WindowStore → String → Option WindowBucket
  | [], _ => none
  | (k, wb) :: rest, key => if k = key then some wb else wlookup rest key

/-- The count already admitted for a key inside the window bucket b;
an entry from an older bucket has expired and counts as zero
(spec section 3: a new window resets the count to zero). -/
def prevCount (w : WindowStore) (key : String) (b : Nat) : Nat :=
  match wlookup w key with
  | some wb => if wb.bucket = b then wb.count else 0
  | none => 0

/-- Result of one atomic increment-and-read round trip against the
Window Counter Store (spec section 4.3). -/
structure CheckResult where
  store : WindowStore
  current : Nat
  is_allowed : Bool
  reset_time : Nat
deriving DecidableEq

/-- Modelled from the spec: the Window Counter Store operation
increment_and_check(key, limit) -> (current_count, is_allowed, reset_time)
(spec section 4.3, absent from the excerpt).  Fixed-origin window
partitioning: bucket = now / window_seconds; the count resets at a new
bucket; is_allowed iff current <= max_requests (so max_requests = 0
denies everything); reset_time is the end of the current window. -/
def increment_and_check (w : WindowStore) (key : String) (limit : RateLimit)
    (now : Nat) : CheckResult :=
  let b := now / limit.window_seconds
  let cnt := prevCount w key b + 1
  { store := (key, { count := cnt, bucket := b }) :: w
    current := cnt
    is_allowed := decide (cnt ≤ limit.max_requests)
    reset_time := (b + 1) * limit.window_seconds }

/-- The shared Concurrent-Slot Tracker state: per key, the list of
tokens of in-flight requests. -/
abbrev ConcurrentStore : Type := List (String × List Nat)

/-- The live slot tokens currently held for a key. -/
def getSlots : ConcurrentStore → String → List Nat
  | [], _ => []
  | (k, s) :: rest, key => if k = key then s else getSlots rest key

/-- Write the slot list for a key (the new entry shadows older ones). -/
def setSlots (cs : ConcurrentStore) (key : String) (s : List Nat) : ConcurrentStore :=
  (key, s) :: cs

/-- Result of one atomic try_acquire round trip: the new store, whether
a slot was granted, and the concurrent-remaining value reported for the
response headers (computed immediately after the decision, spec
section 4.5 step 8). -/
structure AcquireResult where
  store : ConcurrentStore
  granted : Bool
  concurrentRemaining : Nat
deriving DecidableEq

/-- Modelled from the spec: the Concurrent-Slot Tracker operation
try_acquire(key, max_concurrent) (spec section 4.4, absent from the
excerpt).  Atomically checks the live-slot count against
max_concurrent; under the limit it registers the token, else it denies
(and reports remaining = max_concurrent - live = 0). -/
def try_acquire (cs : ConcurrentStore) (key : String) (maxConcurrent : Nat)
    (token : Nat) : AcquireResult :=
  let s := getSlots cs key
  if s.length < maxConcurrent then
    { store := setSlots cs key (token :: s)
      granted := true
      concurrentRemaining := maxConcurrent - (s.length + 1) }
  else
    { store := cs
      granted := false
      concurrentRemaining := maxConcurrent - s.length }

/-- Modelled from the spec: the Concurrent-Slot Tracker release
operation (finish_request): atomically removes exactly the slot
identified by the token; releasing an unknown or already-released token
is a no-op (spec section 4.4). -/
def finish_request (cs : ConcurrentStore) (key : String) (token : Nat) : ConcurrentStore :=
  setSlots cs key ((getSlots cs key).filter (fun t => t ≠ token))

/-- An HTTP response: status code and ordered header list. -/
structure Response where
  status : Nat
  headers : List (String × String)
deriving DecidableEq

/-- First-match header lookup. -/
def hlookup : List (String × String) → String → Option String
  | [], _ => none
  | (k, v) :: rest, name => if k = name then some v else hlookup rest name

/-- The window rate-limit headers attached once a decision was made;
names attested by TestRatelimitHeader.test_header_counts.  Remaining is
the quota left after this request (Nat subtraction: 0 once denied). -/
def windowHeaders (limit : RateLimit) (current reset : Nat) : List (String × String) :=
  [("X-Sentry-Rate-Limit-Remaining", toString (limit.max_requests - current)),
   ("X-Sentry-Rate-Limit-Limit", toString limit.max_requests),
   ("X-Sentry-Rate-Limit-Reset", toString reset)]

/-- The concurrency headers attached when the endpoint is
concurrency-limited; names attested by TestConcurrentRateLimiter. -/
def concurrentHeaders (remaining maxConcurrent : Nat) : List (String × String) :=
  [("X-Sentry-Rate-Limit-ConcurrentRemaining", toString remaining),
   ("X-Sentry-Rate-Limit-ConcurrentLimit", toString maxConcurrent)]

/-- Modelled from the spec: the Admission Middleware
(sentry.middleware.ratelimit.RatelimitMiddleware, absent from the
excerpt), spec section 4.5, one request end to end.  Internal failures
of the rate-limit-value lookup and of the store call are modelled as
the Booleans lookupFails / storeFails (the spec's Result-style store
outcome, section 9): any failure takes the fail-open path, returning
the handler's response untouched.  The token argument identifies this
request's concurrency slot; an acquired slot is released before the
response is returned (the guaranteed-cleanup path, section 4.5
step 7). -/
def ratelimitMiddleware (enforce lookupFails storeFails : Bool) (endpoint : String)
    (cfg : RateLimitConfig) (req : Request) (handler : Response)
    (w : WindowStore) (cs : ConcurrentStore) (now token : Nat) :
    Response × WindowStore × ConcurrentStore :=
  if !enforce then (handler, w, cs)
  else
    match get_rate_limit_key endpoint cfg.group req with
    | none => (handler, w, cs)
    | some key =>
      if lookupFails then (handler, w, cs)
      else
        let cat := (rateLimitCategoryOf req).getD RateLimitCategory.ip
        let limit := get_rate_limit_value req.method cfg cat
        if storeFails then (handler, w, cs)
        else
          let r := increment_and_check w key limit now
          let wh := windowHeaders limit r.current r.reset_time
          if r.is_allowed then
            match limit.max_concurrent with
            | none =>
              ({ status := handler.status, headers := handler.headers ++ wh }, r.store, cs)
            | some maxConcurrent =>
              let a := try_acquire cs key maxConcurrent token
              let ch := concurrentHeaders a.concurrentRemaining maxConcurrent
              if a.granted then
                ({ status := handler.status, headers := handler.headers ++ wh ++ ch },
                 r.store, finish_request a.store key token)
              else
                ({ status := 429, headers := wh ++ ch }, r.store, a.store)
          else
            ({ status := 429, headers := wh }, r.store, cs)

/-! ### Test fixture

The scenarios of RatelimitMiddlewareTest: a plain GET from 127.0.0.1
against an endpoint whose GET/IP limit is set to RateLimit(N, W)
(mirroring how the tests patch get_rate_limit_value), served
repeatedly, request i arriving at time `times i`. -/

/-- RequestFactory().get("/"): anonymous GET from 127.0.0.1. -/
def testReq : Request :=
  { method := "GET", remoteAddr := some "127.0.0.1", user := none, auth := .noAuth }

/-- A "default"-group endpoint configuration whose GET/IP limit is
RateLimit(N, W). -/
def testCfg (N W : Nat) : RateLimitConfig :=
  { group := "default"
    limit_overrides :=
      [(("GET", RateLimitCategory.ip), { max_requests := N, window_seconds := W })] }

/-- The rate-limit key the fixture request derives. -/
def testKey : String := "ip:default:TestEndpoint:GET:127.0.0.1"

/-- A 200 handler response with no headers of its own. -/
def okResponse : Response := { status := 200, headers := [] }

/-- One fixture request through the middleware at time `now` against
window store `w` (no concurrency bound configured, healthy limiter). -/
def serve (N W : Nat) (handler : Response) (now : Nat) (w : WindowStore) :
    Response × WindowStore :=
  let r := ratelimitMiddleware true false false "TestEndpoint" (testCfg N W) testReq
    handler w [] now 0
  (r.1, r.2.1)

/-- The window store after the first k fixture requests. -/
def wAfter (N W : Nat) (handler : Response) (times : Nat → Nat) : Nat → WindowStore
  | 0 => []
  | k + 1 => (serve N W handler (times k) (wAfter N W handler times k)).2

/-- The middleware response of fixture request k (0-indexed). -/
def respAt (N W : Nat) (handler : Response) (times : Nat → Nat) (k : Nat) : Response :=
  (serve N W handler (times k) (wAfter N W handler times k)).1

/-- The endpoint configuration of ConcurrentRateLimitedEndpoint in the
tests: group "foo", GET overridden to RateLimit(20, 1, 3). -/
def concCfg : RateLimitConfig :=
  { group := "foo"
    limit_overrides :=
      [(("GET", RateLimitCategory.ip),
        { max_requests := 20, window_seconds := 1, max_concurrent := some 3 })] }

/-- The override configuration of TestGetRateLimitValue.test_override_rate_limit:
GET/IP to RateLimit(100, 5) and POST/USER to RateLimit(20, 4). -/
def overrideCfg : RateLimitConfig :=
  { group := "default"
    limit_overrides :=
      [(("GET", RateLimitCategory.ip), { max_requests := 100, window_seconds := 5 }),
       (("POST", RateLimitCategory.user), { max_requests := 20, window_seconds := 4 })] }

/-! ### Concurrency trace fixture

TestConcurrentRateLimiter.test_concurrent_request_rate_limiting: four
requests dispatched simultaneously against a concurrency bound of 3,
each sleeping before responding, so all four acquires hit the shared
tracker before any release; the store operations themselves are atomic,
so the execution is some sequence of the four acquires followed by the
three releases.  Tokens 1-4 tag the four in-flight requests. -/

/-- The key the concurrent fixture requests share. -/
def concKey : String := "ip:foo:ConcurrentEndpoint:GET:127.0.0.1"

/-- First simultaneous acquire. -/
def acq1 : AcquireResult := try_acquire [] concKey 3 1

/-- Second simultaneous acquire. -/
def acq2 : AcquireResult := try_acquire acq1.store concKey 3 2

/-- Third simultaneous acquire. -/
def acq3 : AcquireResult := try_acquire acq2.store concKey 3 3

/-- Fourth simultaneous acquire (one past the bound). -/
def acq4 : AcquireResult := try_acquire acq3.store concKey 3 4

/-- The tracker state after the three admitted requests complete and
release their slots. -/
def releasedAll : ConcurrentStore :=
  finish_request (finish_request (finish_request acq4.store concKey 1) concKey 2) concKey 3

/-- A subsequent request's acquire after all slots were released. -/
def acq5 : AcquireResult := try_acquire releasedAll concKey 3 5

lemma testKey_derived : get_rate_limit_key "TestEndpoint" "default" testReq = some testKey :=
  rfl

lemma testCfg_group (N W : Nat) : (testCfg N W).group = "default" := rfl

lemma testLimit (N W : Nat) :
    get_rate_limit_value testReq.method (testCfg N W) RateLimitCategory.ip =
      { max_requests := N, window_seconds := W } := by
  simp [get_rate_limit_value, testCfg, findOverride, testReq]

/-- Explicit form of one fixture request: the response is the handler's
(with window headers appended) when the incremented count stays within
the limit, a bare 429 with window headers otherwise; the store gains
the incremented bucket either way. -/
lemma serve_eq (N W : Nat) (handler : Response) (now : Nat) (w : WindowStore) :
    serve N W handler now w =
      ((if prevCount w testKey (now / W) + 1 ≤ N then
          { status := handler.status
            headers := handler.headers ++
              windowHeaders { max_requests := N, window_seconds := W }
                (prevCount w testKey (now / W) + 1) ((now / W + 1) * W) }
        else
          { status := 429
            headers := windowHeaders { max_requests := N, window_seconds := W }
              (prevCount w testKey (now / W) + 1) ((now / W + 1) * W) }),
       (testKey, { count := prevCount w testKey (now / W) + 1, bucket := now / W }) :: w) := by
  have hcat : rateLimitCategoryOf testReq = some RateLimitCategory.ip := rfl
  simp only [serve, ratelimitMiddleware, testCfg_group, testKey_derived, hcat,
    Option.getD_some, testLimit, increment_and_check, Bool.not_true, Bool.not_false,
    Bool.false_eq_true, if_false, ite_false, decide_eq_true_eq]
  split <;> rfl

lemma serve_store (N W : Nat) (handler : Response) (now : Nat) (w : WindowStore) :
    (serve N W handler now w).2 =
      (testKey, { count := prevCount w testKey (now / W) + 1, bucket := now / W }) :: w := by
  rw [serve_eq]

/-- After k same-window fixture requests the store holds count k for
the fixture key (and nothing before the first request). -/
lemma wAfter_lookup (N W : Nat) (handler : Response) (times : Nat → Nat)
    (hb : ∀ i, times i / W = times 0 / W) (k : Nat) :
    wlookup (wAfter N W handler times k) testKey =
      if k = 0 then none else some { count := k, bucket := times 0 / W } := by
  induction k with
  | zero => rfl
  | succ n ih =>
    have hprev : prevCount (wAfter N W handler times n) testKey (times n / W) = n := by
      unfold prevCount
      rw [ih]
      cases n with
      | zero => simp
      | succ m => simp [hb]
    show wlookup (serve N W handler (times n) (wAfter N W handler times n)).2 testKey = _
    rw [serve_store, hprev]
    simp [wlookup, hb n]

lemma prevCount_wAfter (N W : Nat) (handler : Response) (times : Nat → Nat)
    (hb : ∀ i, times i / W = times 0 / W) (k : Nat) :
    prevCount (wAfter N W handler times k) testKey (times k / W) = k := by
  unfold prevCount
  rw [wAfter_lookup N W handler times hb k]
  cases k with
  | zero => simp
  | succ m => simp [hb]

/-- The status of fixture request k: pass-through while k < N, 429 from
the (N+1)th request on (and always 429 when N = 0). -/
lemma respAt_status (N W : Nat) (handler : Response) (times : Nat → Nat)
    (hb : ∀ i, times i / W = times 0 / W) (k : Nat) :
    (respAt N W handler times k).status = if k < N then handler.status else 429 := by
  unfold respAt
  rw [serve_eq]
  rw [prevCount_wAfter N W handler times hb k]
  by_cases h : k + 1 ≤ N
  · rw [if_pos h, if_pos (Nat.lt_of_succ_le h)]
  · rw [if_neg h, if_neg (fun hlt => h (Nat.succ_le_of_lt hlt))]

/-- The headers of fixture request k when the handler attaches none of
its own: exactly the three window headers, with the incremented count
and the window's reset time. -/
lemma respAt_headers (N W : Nat) (handler : Response) (times : Nat → Nat)
    (hb : ∀ i, times i / W = times 0 / W) (hh : handler.headers = []) (k : Nat) :
    (respAt N W handler times k).headers =
      windowHeaders { max_requests := N, window_seconds := W } (k + 1)
        ((times 0 / W + 1) * W) := by
  unfold respAt
  rw [serve_eq]
  rw [prevCount_wAfter N W handler times hb k]
  rw [hb k]
  by_cases h : k + 1 ≤ N
  · rw [if_pos h]
    simp [hh]
  · rw [if_neg h]

/-- Any bypass or internal-failure condition makes the middleware a
pure pass-through: the handler's response is returned untouched and
neither store changes. -/
lemma middleware_passthrough (enforce lookupFails storeFails : Bool) (endpoint : String)
    (cfg : RateLimitConfig) (req : Request) (handler : Response) (w : WindowStore)
    (cs : ConcurrentStore) (now token : Nat)
    (h : enforce = false ∨ get_rate_limit_key endpoint cfg.group req = none ∨
      lookupFails = true ∨ storeFails = true) :
    ratelimitMiddleware enforce lookupFails storeFails endpoint cfg req handler w cs now token
      = (handler, w, cs) := by
  cases enforce with
  | false => simp [ratelimitMiddleware]
  | true =>
    cases hk : get_rate_limit_key endpoint cfg.group req with
    | none => simp [ratelimitMiddleware, hk]
    | some key =>
      cases lookupFails with
      | true => simp [ratelimitMiddleware, hk]
      | false =>
        cases storeFails with
        | true => simp [ratelimitMiddleware, hk]
        | false => rcases h with h | h | h | h <;> simp_all

/-! ### Claim theorems -/

/-- Claim C1: for every request, if an internal limiter operation fails
(the rate-limit-value lookup or the store call raises), the Admission
Middleware fails open: the request is still processed and returned
normally (the handler's response, its status unchanged, so no 429 is
introduced), and the failure is never surfaced to the caller. -/
theorem limiter_failure_fails_open (enforce lookupFails storeFails : Bool)
    (endpoint : String) (cfg : RateLimitConfig) (req : Request) (handler : Response)
    (w : WindowStore) (cs : ConcurrentStore) (now token : Nat)
    (hfail : lookupFails = true ∨ storeFails = true) :
    ratelimitMiddleware enforce lookupFails storeFails endpoint cfg req handler w cs now token
      = (handler, w, cs) ∧
    (ratelimitMiddleware enforce lookupFails storeFails endpoint cfg req handler w cs
      now token).1.status = handler.status := by
  have h := middleware_passthrough enforce lookupFails storeFails endpoint cfg req handler
    w cs now token (Or.inr (Or.inr hfail))
  exact ⟨h, by rw [h]⟩

/-- Witness for C1: the test_fails_open scenario, RateLimit(0, 100)
with a failing rate-limit-value lookup: the request passes through. -/
theorem limiter_failure_fails_open_witness :
    ratelimitMiddleware true true false "TestEndpoint" (testCfg 0 100) testReq okResponse
      [] [] 0 0 = (okResponse, [], []) ∧
    (ratelimitMiddleware true true false "TestEndpoint" (testCfg 0 100) testReq okResponse
      [] [] 0 0).1.status = 200 := by
  have h := limiter_failure_fails_open true true false "TestEndpoint" (testCfg 0 100)
    testReq okResponse [] [] 0 0 (Or.inl rfl)
  exact ⟨h.1, h.2⟩

/-- Claim C2: under RateLimit(N, W), with every request of the run in
the same window, exactly the first N requests pass through with the
handler's 200 and every later one (the (N+1)th in particular) gets 429;
with N = 0 the condition k < 0 never holds, so every request gets
429. -/
theorem window_quota_enforced (N W : Nat) (handler : Response) (times : Nat → Nat)
    (k : Nat) (hb : ∀ i, times i / W = times 0 / W) (hs : handler.status = 200) :
    (respAt N W handler times k).status = if k < N then 200 else 429 := by
  rw [respAt_status N W handler times hb k, hs]

/-- Witness for C2: RateLimit(2, 100), requests all at time 0: request
index 1 still passes, request index 2 (the third) is denied. -/
theorem window_quota_enforced_witness :
    (respAt 2 100 okResponse (fun _ => 0) 1).status = 200 ∧
    (respAt 2 100 okResponse (fun _ => 0) 2).status = 429 := by
  refine ⟨?_, ?_⟩
  · have h := window_quota_enforced 2 100 okResponse (fun _ => 0) 1 (fun i => rfl) rfl
    simpa using h
  · have h := window_quota_enforced 2 100 okResponse (fun _ => 0) 2 (fun i => rfl) rfl
    simpa using h

/-- Claim C3: concurrency bound 3 with four simultaneous requests (all
acquires reach the atomic tracker before any release): the first three
acquires are granted reporting concurrent-remaining 2, 1, 0, the fourth
is the only denial; after the three in-flight requests release, the key
holds no live slots and a subsequent acquire reports
concurrent-remaining 2 again. -/
theorem concurrent_slots_scenario :
    acq1.granted = true ∧ acq2.granted = true ∧ acq3.granted = true ∧
    acq4.granted = false ∧
    acq1.concurrentRemaining = 2 ∧ acq2.concurrentRemaining = 1 ∧
    acq3.concurrentRemaining = 0 ∧ acq4.concurrentRemaining = 0 ∧
    getSlots releasedAll concKey = [] ∧
    acq5.granted = true ∧ acq5.concurrentRemaining = 2 := by
  decide

/-- Counterexample for C4: a request for which a rate-limit decision
was made carries exactly the headers X-Sentry-Rate-Limit-Remaining,
X-Sentry-Rate-Limit-Limit and X-Sentry-Rate-Limit-Reset, and no header
named X-RateLimit-Remaining as the claim states. -/
theorem rate_limit_header_names_counterexample :
    ((respAt 2 100 okResponse (fun _ => 0) 0).headers.map Prod.fst =
      ["X-Sentry-Rate-Limit-Remaining", "X-Sentry-Rate-Limit-Limit",
       "X-Sentry-Rate-Limit-Reset"]) ∧
    hlookup (respAt 2 100 okResponse (fun _ => 0) 0).headers "X-RateLimit-Remaining"
      = none := by
  decide

/-- Claim C4 (amended): when a rate-limit decision is made the response
carries X-Sentry-Rate-Limit-Remaining (window quota left after this
request, N - (k+1) for request index k, counting N-1, N-2, ..., 0 and
staying 0 on denied requests), X-Sentry-Rate-Limit-Limit (the window
max) and X-Sentry-Rate-Limit-Reset (epoch seconds at which the window
ends, constant across the window); when concurrency-limited, also
X-Sentry-Rate-Limit-ConcurrentRemaining and
X-Sentry-Rate-Limit-ConcurrentLimit. -/
theorem sentry_header_counts (N W : Nat) (handler : Response) (times : Nat → Nat)
    (k : Nat) (hb : ∀ i, times i / W = times 0 / W) (hh : handler.headers = []) :
    hlookup (respAt N W handler times k).headers "X-Sentry-Rate-Limit-Remaining"
      = some (toString (N - (k + 1))) ∧
    hlookup (respAt N W handler times k).headers "X-Sentry-Rate-Limit-Limit"
      = some (toString N) ∧
    hlookup (respAt N W handler times k).headers "X-Sentry-Rate-Limit-Reset"
      = some (toString ((times 0 / W + 1) * W)) ∧
    hlookup (ratelimitMiddleware true false false "ConcurrentEndpoint" concCfg testReq
      okResponse [] [] 0 7).1.headers "X-Sentry-Rate-Limit-ConcurrentRemaining"
      = some "2" ∧
    hlookup (ratelimitMiddleware true false false "ConcurrentEndpoint" concCfg testReq
      okResponse [] [] 0 7).1.headers "X-Sentry-Rate-Limit-ConcurrentLimit"
      = some "3" := by
  have hw := respAt_headers N W handler times hb hh k
  refine ⟨?_, ?_, ?_, by decide, by decide⟩ <;> rw [hw] <;> simp [windowHeaders, hlookup]

/-- Witness for C4 (amended): RateLimit(10, 100) at time 0, first
request: Remaining 9, Limit 10, Reset 100. -/
theorem sentry_header_counts_witness :
    hlookup (respAt 10 100 okResponse (fun _ => 0) 0).headers "X-Sentry-Rate-Limit-Remaining"
      = some "9" ∧
    hlookup (respAt 10 100 okResponse (fun _ => 0) 0).headers "X-Sentry-Rate-Limit-Limit"
      = some "10" ∧
    hlookup (respAt 10 100 okResponse (fun _ => 0) 0).headers "X-Sentry-Rate-Limit-Reset"
      = some "100" := by
  have h := sentry_header_counts 10 100 okResponse (fun _ => 0) 0 (fun i => rfl) rfl
  exact ⟨h.1, h.2.1, h.2.2.1⟩

/-- Claim C5: for every request with a determinable identity the Key
Deriver returns exactly "<category>:<limit-group>:<endpoint>:<method>:<identity>",
with IPv4 or IPv6 addresses used verbatim as the IP identity, and
returns none when no identity is determinable (anonymous request
without an address) rather than a fabricated default. -/
theorem rate_limit_key_format (e g m ip : String) (u o : Nat) :
    get_rate_limit_key e g { method := m, remoteAddr := some ip, user := none, auth := .noAuth }
      = some ("ip:" ++ g ++ ":" ++ e ++ ":" ++ m ++ ":" ++ ip) ∧
    get_rate_limit_key e g { method := m, remoteAddr := none, user := none, auth := .noAuth }
      = none ∧
    get_rate_limit_key e g { method := m, remoteAddr := some ip, user := some u, auth := .noAuth }
      = some ("user:" ++ g ++ ":" ++ e ++ ":" ++ m ++ ":" ++ toString u) ∧
    get_rate_limit_key e g { method := m, remoteAddr := some ip, user := some u, auth := .sentryAppToken o }
      = some ("org:" ++ g ++ ":" ++ e ++ ":" ++ m ++ ":" ++ toString o) ∧
    get_rate_limit_key "OrganizationGroupIndexEndpoint" "default"
        { method := "GET", remoteAddr := some "127.0.0.1", user := none, auth := .noAuth }
      = some "ip:default:OrganizationGroupIndexEndpoint:GET:127.0.0.1" ∧
    get_rate_limit_key "OrganizationGroupIndexEndpoint" "default"
        { method := "GET", remoteAddr := some "684D:1111:222:3333:4444:5555:6:77", user := none, auth := .noAuth }
      = some "ip:default:OrganizationGroupIndexEndpoint:GET:684D:1111:222:3333:4444:5555:6:77" :=
  ⟨rfl, rfl, rfl, rfl, rfl, rfl⟩

/-- Claim C6: an organization-scoped app token always derives the
ORGANIZATION category (an "org:" key over the organization id), for any
attached user and address; and the preference order is
ORGANIZATION > USER > IP. -/
theorem org_token_category_preference (e g m ip : String) (addr : Option String)
    (u : Option Nat) (o u2 : Nat) :
    get_rate_limit_key e g { method := m, remoteAddr := addr, user := u, auth := .sentryAppToken o }
      = some ("org:" ++ g ++ ":" ++ e ++ ":" ++ m ++ ":" ++ toString o) ∧
    rateLimitCategoryOf { method := m, remoteAddr := addr, user := u, auth := .sentryAppToken o }
      = some RateLimitCategory.organization ∧
    rateLimitCategoryOf { method := m, remoteAddr := some ip, user := some u2, auth := .noAuth }
      = some RateLimitCategory.user ∧
    rateLimitCategoryOf { method := m, remoteAddr := some ip, user := none, auth := .noAuth }
      = some RateLimitCategory.ip :=
  ⟨rfl, rfl, rfl, rfl⟩

/-- Claim C7: the Limit Resolver returns the explicit
per-method-per-category override when declared, otherwise the group's
named default set, otherwise (unknown group) the global default; and an
override for one (method, category) pair never affects the limit
returned for any other pair. -/
theorem rate_limit_value_resolution :
    (∀ (m : String) (cfg : RateLimitConfig) (cat : RateLimitCategory) (rl : RateLimit),
      findOverride cfg.limit_overrides m cat = some rl →
        get_rate_limit_value m cfg cat = rl) ∧
    (∀ (m : String) (cfg : RateLimitConfig) (cat : RateLimitCategory),
      findOverride cfg.limit_overrides m cat = none →
        get_rate_limit_value m cfg cat = get_default_rate_limits_for_group cfg.group cat) ∧
    (∀ (g : String) (cat : RateLimitCategory), findGroup ratelimitGroups g = none →
      get_default_rate_limits_for_group g cat = globalDefaultRateLimit) ∧
    (∀ (g m m2 : String) (cat cat2 : RateLimitCategory) (rl : RateLimit)
      (ov : List ((String × RateLimitCategory) × RateLimit)), (m2, cat2) ≠ (m, cat) →
      get_rate_limit_value m2 { group := g, limit_overrides := ((m, cat), rl) :: ov } cat2
        = get_rate_limit_value m2 { group := g, limit_overrides := ov } cat2) := by
  refine ⟨?_, ?_, ?_, ?_⟩
  · intro m cfg cat rl h
    simp [get_rate_limit_value, h]
  · intro m cfg cat h
    simp [get_rate_limit_value, h]
  · intro g cat h
    simp [get_default_rate_limits_for_group, h]
  · intro g m m2 cat cat2 rl ov h
    have h2 : ¬ ((m, cat) = (m2, cat2)) := fun he => h he.symm
    simp [get_rate_limit_value, findOverride, h2]

/-- Witness for C7: the test_override_rate_limit configuration: GET/IP
is overridden to RateLimit(100, 5) while GET/USER falls back to the
"default" group's default. -/
theorem rate_limit_value_resolution_witness :
    get_rate_limit_value "GET" overrideCfg RateLimitCategory.ip
      = { max_requests := 100, window_seconds := 5 } ∧
    get_rate_limit_value "GET" overrideCfg RateLimitCategory.user
      = get_default_rate_limits_for_group "default" RateLimitCategory.user := by
  constructor
  · exact rate_limit_value_resolution.1 "GET" overrideCfg RateLimitCategory.ip
      { max_requests := 100, window_seconds := 5 } (by decide)
  · exact rate_limit_value_resolution.2.1 "GET" overrideCfg RateLimitCategory.user (by decide)

/-- Claim C8: with the current window's quota exhausted (request index
k with N <= k is denied), a request arriving in a different window
bucket (once W seconds elapsed past the window start) is allowed again:
the count reset to zero. -/
theorem window_rollover_allows (N W : Nat) (handler : Response) (times : Nat → Nat)
    (k t2 : Nat) (hb : ∀ i, times i / W = times 0 / W) (hb2 : t2 / W ≠ times 0 / W)
    (hN : 1 ≤ N) (hk : N ≤ k) (hs : handler.status = 200) :
    (respAt N W handler times k).status = 429 ∧
    (serve N W handler t2 (wAfter N W handler times (k + 1))).1.status = 200 := by
  constructor
  · rw [respAt_status N W handler times hb k, if_neg (Nat.not_lt.mpr hk)]
  · have hprev : prevCount (wAfter N W handler times (k + 1)) testKey (t2 / W) = 0 := by
      unfold prevCount
      rw [wAfter_lookup N W handler times hb (k + 1)]
      have hne : times 0 / W ≠ t2 / W := fun he => hb2 he.symm
      simp [hne]
    rw [serve_eq]
    simp [hprev, hN, hs]

/-- Witness for C8: RateLimit(1, 1): the request at t = 0 exhausts the
window, the second request at t = 0 is denied, and the request at t = 1
(the next window) is allowed. -/
theorem window_rollover_allows_witness :
    (respAt 1 1 okResponse (fun _ => 0) 1).status = 429 ∧
    (serve 1 1 okResponse 1 (wAfter 1 1 okResponse (fun _ => 0) 2)).1.status = 200 :=
  window_rollover_allows 1 1 okResponse (fun _ => 0) 1 1 (fun i => rfl) (by decide)
    (by decide) (by decide) rfl

/-- Claim C9: when no rate-limit decision is made for the request (the
endpoint does not opt in, no key is derivable, or the limiter failed
open), the response carries none of the rate-limit headers. -/
theorem headers_absent_on_bypass (enforce lookupFails storeFails : Bool)
    (endpoint : String) (cfg : RateLimitConfig) (req : Request) (handler : Response)
    (w : WindowStore) (cs : ConcurrentStore) (now token : Nat)
    (hbypass : enforce = false ∨ get_rate_limit_key endpoint cfg.group req = none ∨
      lookupFails = true ∨ storeFails = true)
    (hh : handler.headers = []) :
    hlookup (ratelimitMiddleware enforce lookupFails storeFails endpoint cfg req handler
      w cs now token).1.headers "X-Sentry-Rate-Limit-Remaining" = none ∧
    hlookup (ratelimitMiddleware enforce lookupFails storeFails endpoint cfg req handler
      w cs now token).1.headers "X-Sentry-Rate-Limit-Limit" = none ∧
    hlookup (ratelimitMiddleware enforce lookupFails storeFails endpoint cfg req handler
      w cs now token).1.headers "X-Sentry-Rate-Limit-Reset" = none := by
  have h := middleware_passthrough enforce lookupFails storeFails endpoint cfg req handler
    w cs now token hbypass
  rw [h]
  simp [hh, hlookup]

/-- Witness for C9: a request with no derivable key (anonymous, no
address) gets a response with no rate-limit headers. -/
theorem headers_absent_on_bypass_witness :
    hlookup (ratelimitMiddleware true false false "TestEndpoint" (testCfg 10 100)
      { method := "GET", remoteAddr := none, user := none, auth := .noAuth } okResponse
      [] [] 0 0).1.headers "X-Sentry-Rate-Limit-Remaining" = none ∧
    hlookup (ratelimitMiddleware true false false "TestEndpoint" (testCfg 10 100)
      { method := "GET", remoteAddr := none, user := none, auth := .noAuth } okResponse
      [] [] 0 0).1.headers "X-Sentry-Rate-Limit-Limit" = none ∧
    hlookup (ratelimitMiddleware true false false "TestEndpoint" (testCfg 10 100)
      { method := "GET", remoteAddr := none, user := none, auth := .noAuth } okResponse
      [] [] 0 0).1.headers "X-Sentry-Rate-Limit-Reset" = none :=
  headers_absent_on_bypass true false false "TestEndpoint" (testCfg 10 100)
    { method := "GET", remoteAddr := none, user := none, auth := .noAuth } okResponse
    [] [] 0 0 (Or.inr (Or.inl rfl)) rfl

/-- Claim C10: an organization-scoped API key with an anonymous request
user derives the IP category (keyed on the client address), not
ORGANIZATION; only organization-scoped app tokens map to
ORGANIZATION. -/
theorem api_key_anonymous_uses_ip (e g m ip : String) (o : Nat) :
    get_rate_limit_key e g { method := m, remoteAddr := some ip, user := none, auth := .apiKey o }
      = some ("ip:" ++ g ++ ":" ++ e ++ ":" ++ m ++ ":" ++ ip) ∧
    rateLimitCategoryOf { method := m, remoteAddr := some ip, user := none, auth := .apiKey o }
      = some RateLimitCategory.ip :=
  ⟨rfl, rfl⟩

end Sentry
